import Mathlib

/-!
Shallow embedding of the NationalSecurityHackathon repository
(`src/simulators/red_team_simulator.py`, `src/analyzers/osint_collector.py`,
`src/models/claude_agent.py`) together with proofs settling the frozen claims.

Python floats drawn by `random.random()` are modelled as rationals supplied by
an explicit draw stream `rand : Nat → ℚ`; each call of `random.random()`
consumes the next position of the stream.  Python dicts that play the role of
records are modelled as structures; a Python value that may be `None` is an
`Option`.  Filesystem state relevant to the cache logic is modelled explicitly
(content of the cache file plus its modification time); a raised Python
exception is `Except.error`.  Calls into external services (the Anthropic
completion API, `kagglehub`, `pandas`) are the boundary of the embedding:
their outcome is an explicit parameter of the embedded function
(the reply text of the model; the success or failure of the dataset
download-and-process pipeline together with the records it yields).
-/

namespace ClaudeAgent

/-- The constant dictionary returned by `ClaudeAgent._parse_attack_scenario`
(claude_agent.py lines 160-170).  Values that Python could in principle set to
`None` are `Option`s, so that "non-null" is expressible. -/
structure AttackScenario where
  attack_vector : Option String
  steps : List String
  impact : Option String
  indicators : List String
  attacker_profile : List (String × String)
deriving DecidableEq, Repr

/-- The constant dictionary returned by
`ClaudeAgent._parse_vulnerability_analysis` (claude_agent.py lines 172-182). -/
structure VulnAnalysis where
  severity : String
  explanation : String
  mitigations : List String
  long_term_fixes : List String
  detection_methods : List String
deriving DecidableEq, Repr

/-- `ClaudeAgent._parse_attack_scenario` (claude_agent.py lines 160-170):
a placeholder parser that ignores the reply text entirely and returns a
fixed schema-conformant dictionary. -/
def _parse_attack_scenario (_text : String) : AttackScenario :=
  { attack_vector := some "Example attack vector"
    steps := ["Step 1", "Step 2", "Step 3"]
    impact := some "Critical"
    indicators := ["IOC 1", "IOC 2"]
    attacker_profile := [("resources", "Medium"), ("skills", "Advanced")] }

/-- `ClaudeAgent.generate_attack_scenario` (claude_agent.py lines 12-27).
The prompt built from `target_info` and `complexity` is sent to the external
completion API; the reply text of that external call is the parameter
`reply`, and the function returns `_parse_attack_scenario` of it. -/
def generate_attack_scenario (_target_info : List (String × String))
    (_complexity : String) (reply : String) : AttackScenario :=
  _parse_attack_scenario reply

/-- `ClaudeAgent._parse_vulnerability_analysis` (claude_agent.py
lines 172-182): a placeholder parser returning a fixed dictionary. -/
def _parse_vulnerability_analysis (_text : String) : VulnAnalysis :=
  { severity := "High"
    explanation := "Technical explanation of vulnerability"
    mitigations := ["Mitigation 1", "Mitigation 2"]
    long_term_fixes := ["Fix 1", "Fix 2"]
    detection_methods := ["Detection 1", "Detection 2"] }

/-- Python whitespace as stripped by `str.strip()`:
space, tab, newline, carriage return, vertical tab, form feed. -/
def pyIsSpace (c : Char) : Bool :=
  c == ' ' || c == '\t' || c == '\n' || c == '\r'
    || c == Char.ofNat 11 || c == Char.ofNat 12

/-- Truthiness of `line.strip()`: at least one non-whitespace character. -/
def truthyStrip (s : String) : Bool :=
  s.data.any fun c => !(pyIsSpace c)

/-- Whether the first list is an initial segment of the second
(character-level helper for Python's `startswith` and `in`). -/
def startsChars : List Char → List Char → Bool
  | [], _ => true
  | _ :: _, [] => false
  | p :: ps, c :: cs => p == c && startsChars ps cs

/-- Whether `pat` occurs contiguously somewhere in the list
(character-level helper for Python's `in` on strings). -/
def subOccurs (pat : List Char) : List Char → Bool
  | [] => startsChars pat []
  | c :: rest => startsChars pat (c :: rest) || subOccurs pat rest

/-- Python `pat in s` on strings. -/
def hasSub (s pat : String) : Bool := subOccurs pat.data s.data

/-- Python `s.startswith(pre)`. -/
def pyStartsWith (s pre : String) : Bool := startsChars pre.data s.data

/-- Python `s[n:]` (slicing by code points). -/
def pyDrop (s : String) (n : Nat) : String := String.mk (s.data.drop n)

/-- Python `s.split('\n')` on the character list of `s`. -/
def splitNl : List Char → List String
  | [] => [""]
  | c :: rest =>
    if c == '\n' then "" :: splitNl rest
    else match splitNl rest with
      | [] => [String.mk [c]]
      | line :: ls => String.mk (c :: line.data) :: ls

/-- The five section slots of `ClaudeAgent.analyze_simulation_results`
(claude_agent.py lines 79-85), named after the keys of the `sections`
dictionary. -/
inductive SectionKey where
  | key_findings
  | attack_patterns
  | critical_vulnerabilities
  | recommendations
  | risk_assessment
deriving DecidableEq, Repr

/-- The `sections` dictionary (claude_agent.py lines 79-85): four list-valued
slots and one string-valued slot. -/
structure Sections where
  key_findings : List String
  attack_patterns : List String
  critical_vulnerabilities : List String
  recommendations : List String
  risk_assessment : String
deriving DecidableEq, Repr

def emptySections : Sections := ⟨[], [], [], [], ""⟩

/-- The heading-detection `if`/`elif` chain of the section splitter
(claude_agent.py lines 90-99), in source order; `"X" in line` is substring
containment. -/
def lineHeading (line : String) : Option SectionKey :=
  if hasSub line "Key Findings" then some .key_findings
  else if hasSub line "Attack Pattern" then some .attack_patterns
  else if hasSub line "Critical Vulnerabilities" then some .critical_vulnerabilities
  else if hasSub line "Defense Recommendations" then some .recommendations
  else if hasSub line "Risk Assessment" then some .risk_assessment
  else none

/-- The body of the final `elif` of the splitter (claude_agent.py
lines 100-104): in the risk-assessment section every (truthy) line is
appended to the string with a newline; in a list section only lines starting
with `"- "` are appended, with the prefix removed. -/
def addLine : SectionKey → String → Sections → Sections
  | .risk_assessment, line, acc =>
    { acc with risk_assessment := acc.risk_assessment ++ line ++ "\n" }
  | .key_findings, line, acc =>
    if pyStartsWith line "- " then
      { acc with key_findings := acc.key_findings ++ [pyDrop line 2] }
    else acc
  | .attack_patterns, line, acc =>
    if pyStartsWith line "- " then
      { acc with attack_patterns := acc.attack_patterns ++ [pyDrop line 2] }
    else acc
  | .critical_vulnerabilities, line, acc =>
    if pyStartsWith line "- " then
      { acc with critical_vulnerabilities :=
          acc.critical_vulnerabilities ++ [pyDrop line 2] }
    else acc
  | .recommendations, line, acc =>
    if pyStartsWith line "- " then
      { acc with recommendations := acc.recommendations ++ [pyDrop line 2] }
    else acc

/-- The line loop of `ClaudeAgent.analyze_simulation_results`
(claude_agent.py lines 88-104): headings switch `current_section`; other
lines are processed by `addLine` when a section is current and the stripped
line is truthy, and are otherwise dropped. -/
def analyzeLoop : List String → Option SectionKey → Sections → Sections
  | [], _, acc => acc
  | line :: ls, cur, acc =>
    match lineHeading line with
    | some sec => analyzeLoop ls (some sec) acc
    | none =>
      match cur with
      | none => analyzeLoop ls none acc
      | some sec =>
        if truthyStrip line then analyzeLoop ls (some sec) (addLine sec line acc)
        else analyzeLoop ls (some sec) acc

/-- The section-splitting transform applied by
`ClaudeAgent.analyze_simulation_results` to the external model's reply text
(claude_agent.py lines 76-109). -/
def parse_analysis_sections (analysis : String) : Sections :=
  analyzeLoop (splitNl analysis.data) none emptySections

/-- Specification-side description of the splitter: assign every non-heading
line to the most recently seen heading, dropping the lines that precede the
first recognised heading. -/
def headedLines : Option SectionKey → List String → List (SectionKey × String)
  | _, [] => []
  | cur, line :: ls =>
    match lineHeading line with
    | some sec => headedLines (some sec) ls
    | none =>
      match cur with
      | none => headedLines none ls
      | some sec => (sec, line) :: headedLines (some sec) ls

/-- Specification-side description: the list collected for a list-valued
section consists of the `"- "`-prefixed lines assigned to it, with the
prefix removed. -/
def dashItems (sec : SectionKey) : List (SectionKey × String) → List String
  | [] => []
  | p :: ps =>
    (if p.fst = sec ∧ pyStartsWith p.snd "- " = true
     then [pyDrop p.snd 2] else []) ++ dashItems sec ps

/-- Specification-side description: the risk-assessment string consists of
every truthy line assigned to that section, each followed by a newline. -/
def riskText : List (SectionKey × String) → String
  | [] => ""
  | p :: ps =>
    (if p.fst = .risk_assessment ∧ truthyStrip p.snd = true
     then p.snd ++ "\n" else "") ++ riskText ps

end ClaudeAgent

namespace OSINTCollector

/-- A vessel record as produced by `collect_ais_data`
(osint_collector.py lines 104-133 and 327-359), restricted to the fields the
rest of the repository reads: `mmsi` is always present, `imo` only when the
dataset provided one (`dict.get` on an absent key is `None`). -/
structure Vessel where
  mmsi : String
  imo : Option String
deriving DecidableEq, Repr

/-- A facility record as produced by `collect_infrastructure_data`
(osint_collector.py lines 378-455), restricted to the `id` field read by the
rest of the repository. -/
structure Facility where
  id : String
deriving DecidableEq, Repr

/-- Observable state of a cache file: missing, present but not parseable as
JSON of the expected shape, or present with parsed content. -/
inductive FileContent (α : Type) where
  | absent
  | corrupt
  | valid (data : α)
deriving DecidableEq, Repr

/-- The vessel cache file name (osint_collector.py line 32). -/
def ais_cache_file : String := "processed_kaggle_ais.json"

/-- The per-country infrastructure cache file name
(osint_collector.py line 364). -/
def infrastructure_cache_file (country : String) : String :=
  "infrastructure_" ++ country ++ ".json"

/-- `OSINTCollector._generate_simulated_vessels` (osint_collector.py
lines 327-359): `limit` synthetic vessels with random `mmsi` in
[100000000, 999999999] and random `imo` of the form `IMO<7 digits>`; `rng`
supplies the random draws (two per vessel for the modelled fields). -/
def _generate_simulated_vessels (rng : Nat → Nat) (limit : Nat) : List Vessel :=
  (List.range limit).map fun idx =>
    { mmsi := toString (100000000 + rng (2 * idx) % 900000000)
      imo := some ("IMO" ++ toString (1000000 + rng (2 * idx + 1) % 9000000)) }

/-- Outcome of a `collect_ais_data` call: the returned records, whether the
external dataset pipeline was invoked, and the content of the cache file
after the call. -/
structure AisResult where
  vessels : List Vessel
  queried_external : Bool
  new_cache : FileContent (List Vessel)
deriving DecidableEq, Repr

/-- `OSINTCollector.collect_ais_data` (osint_collector.py lines 30-160).
`cache`/`mtime` are the state of `processed_kaggle_ais.json` and `now` the
current time — the source never reads the file's age on this path, which is
why the body ignores `now` and `mtime`.  A parseable cache is served
unconditionally, sliced to `limit`.  Otherwise the external
download-and-process pipeline runs; `pipeline` is its outcome (`ok` with the
processed vessel records, or `error` for any of the failure modes: download
failure, no CSV file, pandas processing exception).  On success the processed
records are written to the cache and the first `limit` are returned; on
failure `_generate_simulated_vessels` supplies the result and nothing is
cached (a corrupt cache file has already been removed at that point). -/
def collect_ais_data (cache : FileContent (List Vessel)) (_now _mtime : Nat)
    (limit : Nat) (pipeline : Except Unit (List Vessel)) (rng : Nat → Nat) :
    AisResult :=
  match cache with
  | .valid all_vessels => ⟨all_vessels.take limit, false, .valid all_vessels⟩
  | _ =>
    match pipeline with
    | .ok vessels => ⟨vessels.take limit, true, .valid vessels⟩
    | .error _ => ⟨_generate_simulated_vessels rng limit, true, .absent⟩

/-- Outcome of a `collect_infrastructure_data` call, in the shape of
`AisResult`. -/
structure InfraResult where
  facilities : List Facility
  queried : Bool
  new_cache : FileContent (List Facility)
deriving DecidableEq, Repr

/-- The five hard-coded facility records (osint_collector.py lines 378-384),
restricted to their ids. -/
def real_facilities : List Facility :=
  [⟨"FAC10001"⟩, ⟨"FAC10002"⟩, ⟨"FAC10003"⟩, ⟨"FAC10004"⟩, ⟨"FAC10005"⟩]

/-- Randomly generated facilities (osint_collector.py lines 419-455 and
469-505): ids of the form `FAC<5 digits>` drawn from `rng`. -/
def gen_facilities (rng : Nat → Nat) (n : Nat) : List Facility :=
  (List.range n).map fun idx => ⟨"FAC" ++ toString (10000 + rng idx % 90000)⟩

/-- The non-cache path of `collect_infrastructure_data`: the `try` block
enriches the five hard-coded facilities and generates more until `limit` is
reached (so `limit ≤ 5` still yields all five); the `except` block —
reached when anything in the `try` body raises, abstracted by `fetchFails` —
generates `limit` synthetic facilities instead.  Both branches write the
result to the cache file. -/
def infra_fetch (rng : Nat → Nat) (limit : Nat) (fetchFails : Bool) :
    InfraResult :=
  let fs := if fetchFails then gen_facilities rng limit
            else real_facilities ++ gen_facilities rng (limit - 5)
  ⟨fs, true, .valid fs⟩

/-- `OSINTCollector.collect_infrastructure_data` (osint_collector.py
lines 361-511).  `country` keys the cache file (see
`infrastructure_cache_file`) and fills location attributes not modelled
here.  A cache file that exists and is younger than 86400 seconds is served
as-is (`json.load` has no try/except on this path, so a corrupt fresh cache
raises); otherwise the fetch path of `infra_fetch` runs and re-caches. -/
def collect_infrastructure_data (cache : FileContent (List Facility))
    (now mtime : Nat) (_country : String) (limit : Nat) (fetchFails : Bool)
    (rng : Nat → Nat) : Except String InfraResult :=
  match cache with
  | .valid data =>
    if now - mtime < 86400 then .ok ⟨data, false, .valid data⟩
    else .ok (infra_fetch rng limit fetchFails)
  | .corrupt =>
    if now - mtime < 86400 then .error "json.decoder.JSONDecodeError"
    else .ok (infra_fetch rng limit fetchFails)
  | .absent => .ok (infra_fetch rng limit fetchFails)

end OSINTCollector

namespace RedTeam

open OSINTCollector ClaudeAgent

/-- One entry of the `results` list built by
`RedTeamSimulator.simulate_attack` (red_team_simulator.py lines 126-131):
`{"step": i+1, "description": step, "success": success, "details": ...}`. -/
structure StepResult where
  step : Nat
  description : String
  success : Bool
  details : String
deriving DecidableEq, Repr

/-- The scenario dictionary held in `self.current_scenario`
(red_team_simulator.py lines 104-109) and mutated by `simulate_attack` and
`analyze_vulnerability`.  Keys that are absent before the corresponding call
(`simulation_results`, `overall_success`, `vulnerability_analysis`) are
defaulted / optional. -/
structure Scenario where
  scenario : AttackScenario
  status : String
  simulation_results : List StepResult := []
  overall_success : Option Bool := none
  vulnerability_analysis : Option VulnAnalysis := none
deriving DecidableEq, Repr

/-- Mutable state of a `RedTeamSimulator` object (red_team_simulator.py
lines 17-18): `self.current_scenario` and `self.simulation_history`. -/
structure SimState where
  current_scenario : Option Scenario
  simulation_history : List Scenario
deriving DecidableEq, Repr

/-- The result dict appended for step `i` (0-based) with success flag
`success` (red_team_simulator.py lines 126-131). -/
def stepRec (i : Nat) (s : String) (success : Bool) : StepResult :=
  { step := i + 1
    description := s
    success := success
    details := (if success then "Successful" else "Failed")
      ++ " execution of step " ++ toString (i + 1) }

/-- The step loop of `RedTeamSimulator.simulate_attack`
(red_team_simulator.py lines 122-137).  `i` is the 0-based `enumerate` index,
`k` is the position of the next unconsumed value of the draw stream `rand`.
Per iteration: one draw decides success (`random.random() > 0.3`); the result
dict is always appended; after a failed step a second draw is made and the
loop `break`s exactly when it exceeds `0.5`. -/
def simulateSteps (rand : Nat → ℚ) : List String → Nat → Nat → List StepResult
  | [], _, _ => []
  | s :: rest, i, k =>
    let success := decide ((3 : ℚ)/10 < rand k)
    if success then
      stepRec i s success :: simulateSteps rand rest (i + 1) (k + 1)
    else if (1 : ℚ)/2 < rand (k + 1) then
      [stepRec i s success]
    else
      stepRec i s success :: simulateSteps rand rest (i + 1) (k + 2)

/-- `RedTeamSimulator.simulate_attack` (red_team_simulator.py lines 112-147).
The pair returned is (result of the call, object state after the call); a
raised `ValueError` is `Except.error`, in which case the state is the state
at the raise.  When the scenario argument is `none` Python operates on the
`self.current_scenario` dict in place, so the updated scenario is also the
new `current_scenario`; a caller-supplied dict leaves `current_scenario`
untouched. -/
def simulate_attack (rand : Nat → ℚ) (st : SimState)
    (scenarioArg : Option Scenario) : Except String Scenario × SimState :=
  let sc? := match scenarioArg with
    | some s => some s
    | none => st.current_scenario
  match sc? with
  | none => (.error "No scenario available for simulation", st)
  | some sc =>
    let results := simulateSteps rand sc.scenario.steps 0 0
    let sc' : Scenario :=
      { sc with
        simulation_results := results
        status := "simulated"
        overall_success := some (results.any (fun r => r.success)) }
    (.ok sc',
      { current_scenario :=
          match scenarioArg with
          | none => some sc'
          | some _ => st.current_scenario
        simulation_history := st.simulation_history ++ [sc'] })

/-- `RedTeamSimulator.analyze_vulnerability` (red_team_simulator.py
lines 149-165).  The synthetic system details built by
`_get_detailed_system_info` only feed the prompt of the external model call,
whose reply text is the parameter `reply`; the reply is then run through the
placeholder parser.  As in `simulate_attack`, a missing scenario raises
`ValueError` before any state is touched. -/
def analyze_vulnerability (st : SimState) (scenarioArg : Option Scenario)
    (reply : String) : Except String Scenario × SimState :=
  let sc? := match scenarioArg with
    | some s => some s
    | none => st.current_scenario
  match sc? with
  | none => (.error "No scenario available for analysis", st)
  | some sc =>
    let sc' : Scenario :=
      { sc with
        vulnerability_analysis := some (_parse_vulnerability_analysis reply)
        status := "analyzed" }
    (.ok sc',
      { st with
        current_scenario :=
          match scenarioArg with
          | none => some sc'
          | some _ => st.current_scenario })

/-- The tagged target dict returned by
`RedTeamSimulator.load_target_from_osint`: `{"type": "maritime", **vessel}`
or `{"type": "infrastructure", **facility}`. -/
inductive Target where
  | maritime (v : Vessel)
  | infrastructure (f : Facility)
deriving DecidableEq, Repr

/-- `RedTeamSimulator.load_target_from_osint` (red_team_simulator.py
lines 20-71).  The maritime branch fetches 20 vessels through
`collect_ais_data`; with an identifier it returns the first vessel whose
`mmsi` or `imo` equals it, falling back to `random.choice` over the whole
fetched list when none matches (`choice` is the random index;
`random.choice` on an empty list raises `IndexError`).  The infrastructure
branch does the same over `collect_infrastructure_data` with matching on
`id`.  The same fallback `random.choice` also serves the no-identifier
case. -/
def load_target_from_osint (aisCache : FileContent (List Vessel))
    (infraCache : FileContent (List Facility)) (now aisMtime infraMtime : Nat)
    (pipeline : Except Unit (List Vessel)) (rng : Nat → Nat)
    (fetchFails : Bool) (target_type : String) (target_id : Option String)
    (choice : Nat) : Except String Target :=
  if target_type = "maritime" then
    let vessels := (collect_ais_data aisCache now aisMtime 20 pipeline rng).vessels
    match target_id with
    | some tid =>
      match vessels.find? (fun v => v.mmsi == tid || v.imo == some tid) with
      | some v => .ok (.maritime v)
      | none =>
        match vessels.get? (choice % vessels.length) with
        | some v => .ok (.maritime v)
        | none => .error "IndexError"
    | none =>
      match vessels.get? (choice % vessels.length) with
      | some v => .ok (.maritime v)
      | none => .error "IndexError"
  else
    match collect_infrastructure_data infraCache now infraMtime "US" 20
        fetchFails rng with
    | .error e => .error e
    | .ok r =>
      let facilities := r.facilities
      match target_id with
      | some tid =>
        match facilities.find? (fun f => f.id == tid) with
        | some f => .ok (.infrastructure f)
        | none =>
          match facilities.get? (choice % facilities.length) with
          | some f => .ok (.infrastructure f)
          | none => .error "IndexError"
      | none =>
        match facilities.get? (choice % facilities.length) with
        | some f => .ok (.infrastructure f)
        | none => .error "IndexError"

/-- Number of draw-stream positions consumed while producing the given
results: one draw for a successful step, two for a failed one (the success
draw plus the maybe-break draw). -/
def drawsUsed : List StepResult → Nat
  | [] => 0
  | r :: rs => (if r.success then 1 else 2) + drawsUsed rs

/-- Full specification of the random walk of `simulate_attack`, relative to a
start `enumerate` index `i` and a start position `k` of the draw stream:

* at most one result per step, indices and descriptions follow the step list;
* the `j`-th recorded success flag is exactly "the first draw made while
  processing step `j` exceeded 3/10", where a successful step consumes one
  draw and a failed step consumes two (`drawsUsed`);
* the walk stopped before exhausting the steps exactly when the last recorded
  step failed and its second draw exceeded 1/2 (`stop`), and at every earlier
  failed step the second draw was at most 1/2 (`cont`). -/
structure StepWalkSpec (rand : Nat → ℚ) (steps : List String) (i k : Nat)
    (res : List StepResult) : Prop where
  len_le : res.length ≤ steps.length
  idx : ∀ j (h : j < res.length), (res.get ⟨j, h⟩).step = i + j + 1
  desc : ∀ j (h : j < res.length),
    ∃ hj : j < steps.length, (res.get ⟨j, h⟩).description = steps.get ⟨j, hj⟩
  succ : ∀ j (h : j < res.length),
    (res.get ⟨j, h⟩).success
      = decide ((3 : ℚ)/10 < rand (k + drawsUsed (res.take j)))
  stop : res.length < steps.length →
    ∃ hne : res ≠ [], ((res.getLast hne).success = false
      ∧ (1 : ℚ)/2 < rand (k + drawsUsed res - 1))
  cont : ∀ j (h : j + 1 < res.length),
    (res.get ⟨j, Nat.lt_of_succ_lt h⟩).success = false →
    ¬ (1 : ℚ)/2 < rand (k + drawsUsed (res.take j) + 1)

end RedTeam

open ClaudeAgent OSINTCollector RedTeam

@[simp] theorem stepRec_step (i : Nat) (s : String) (b : Bool) :
    (stepRec i s b).step = i + 1 := rfl

@[simp] theorem stepRec_description (i : Nat) (s : String) (b : Bool) :
    (stepRec i s b).description = s := rfl

@[simp] theorem stepRec_success (i : Nat) (s : String) (b : Bool) :
    (stepRec i s b).success = b := rfl

/-- Unfolding equation: successful step, walk continues, one draw consumed. -/
theorem simulateSteps_cons_pos {rand : Nat → ℚ} {k : Nat}
    (hs : (3 : ℚ)/10 < rand k) (s : String) (rest : List String) (i : Nat) :
    simulateSteps rand (s :: rest) i k
      = stepRec i s true :: simulateSteps rand rest (i + 1) (k + 1) := by
  simp only [simulateSteps]
  rw [decide_eq_true hs, if_pos rfl]

/-- Unfolding equation: failed step whose second draw exceeds 1/2, walk stops. -/
theorem simulateSteps_cons_stop {rand : Nat → ℚ} {k : Nat}
    (hs : ¬ (3 : ℚ)/10 < rand k) (h2 : (1 : ℚ)/2 < rand (k + 1))
    (s : String) (rest : List String) (i : Nat) :
    simulateSteps rand (s :: rest) i k = [stepRec i s false] := by
  simp only [simulateSteps]
  rw [decide_eq_false hs, if_neg Bool.false_ne_true, if_pos h2]

/-- Unfolding equation: failed step whose second draw is at most 1/2, walk
continues, two draws consumed. -/
theorem simulateSteps_cons_cont {rand : Nat → ℚ} {k : Nat}
    (hs : ¬ (3 : ℚ)/10 < rand k) (h2 : ¬ (1 : ℚ)/2 < rand (k + 1))
    (s : String) (rest : List String) (i : Nat) :
    simulateSteps rand (s :: rest) i k
      = stepRec i s false :: simulateSteps rand rest (i + 1) (k + 2) := by
  simp only [simulateSteps]
  rw [decide_eq_false hs, if_neg Bool.false_ne_true, if_neg h2]

/-- The simulation records at most one result per step. -/
theorem simulateSteps_length_le (rand : Nat → ℚ) :
    ∀ (steps : List String) (i k : Nat),
      (simulateSteps rand steps i k).length ≤ steps.length := by
  intro steps
  induction steps with
  | nil => intro i k; simp [simulateSteps]
  | cons s rest ih =>
    intro i k
    simp only [simulateSteps]
    cases hs : decide ((3 : ℚ)/10 < rand k)
    · rw [if_neg Bool.false_ne_true]
      by_cases h2 : (1 : ℚ)/2 < rand (k + 1)
      · rw [if_pos h2]
        simp
      · rw [if_neg h2, List.length_cons, List.length_cons]
        exact Nat.succ_le_succ (ih (i + 1) (k + 2))
    · rw [if_pos rfl, List.length_cons, List.length_cons]
      exact Nat.succ_le_succ (ih (i + 1) (k + 1))

/-- A nonempty step list yields at least one recorded result. -/
theorem simulateSteps_ne_nil (rand : Nat → ℚ)
    (steps : List String) (i k : Nat) (h : steps ≠ []) :
    simulateSteps rand steps i k ≠ [] := by
  cases steps with
  | nil => exact absurd rfl h
  | cons s rest =>
    simp only [simulateSteps]
    cases hs : decide ((3 : ℚ)/10 < rand k)
    · rw [if_neg Bool.false_ne_true]
      by_cases h2 : (1 : ℚ)/2 < rand (k + 1)
      · rw [if_pos h2]; simp
      · rw [if_neg h2]; simp
    · rw [if_pos rfl]; simp

theorem drawsUsed_cons (r : StepResult) (rs : List StepResult) :
    drawsUsed (r :: rs) = (if r.success then 1 else 2) + drawsUsed rs := rfl

/-- Extending a specification-conformant tail by one conformant head result.
`c` is the number of draws the head step consumed. -/
theorem StepWalkSpec.cons {rand : Nat → ℚ} {steps : List String}
    {i k c : Nat} {s : String} {r : StepResult} {res' : List StepResult}
    (hstep : r.step = i + 1) (hdesc : r.description = s)
    (hsucc : r.success = decide ((3 : ℚ)/10 < rand k))
    (hc : c = if r.success then 1 else 2)
    (hcont2 : r.success = false → ¬ (1 : ℚ)/2 < rand (k + 1))
    (ih : StepWalkSpec rand steps (i + 1) (k + c) res') :
    StepWalkSpec rand (s :: steps) i k (r :: res') where
  len_le := by simpa using Nat.succ_le_succ ih.len_le
  idx := by
    intro j h
    cases j with
    | zero => simpa using hstep
    | succ j =>
      have h' : j < res'.length := by simpa using h
      have := ih.idx j h'
      rw [List.get_cons_succ]
      omega
  desc := by
    intro j h
    cases j with
    | zero => exact ⟨by simp, by simpa using hdesc⟩
    | succ j =>
      have h' : j < res'.length := by simpa using h
      obtain ⟨hj, hd⟩ := ih.desc j h'
      exact ⟨Nat.succ_lt_succ hj, by simpa using hd⟩
  succ := by
    intro j h
    cases j with
    | zero => simpa using hsucc
    | succ j =>
      have h' : j < res'.length := by simpa using h
      have := ih.succ j h'
      rw [List.get_cons_succ, List.take_succ_cons, drawsUsed_cons, ← hc,
        ← Nat.add_assoc]
      exact this
  stop := by
    intro hlt
    have hlt' : res'.length < steps.length := by simpa using hlt
    obtain ⟨hne', hlast, hdraw⟩ := ih.stop hlt'
    refine ⟨List.cons_ne_nil r res', ?_, ?_⟩
    · rw [List.getLast_cons hne']
      exact hlast
    · rw [drawsUsed_cons, ← hc]
      have hk : k + (c + drawsUsed res') - 1 = k + c + drawsUsed res' - 1 := by
        omega
      rw [hk]
      exact hdraw
  cont := by
    intro j h hfalse
    cases j with
    | zero =>
      have : r.success = false := by simpa using hfalse
      simpa using hcont2 this
    | succ j =>
      have h' : j + 1 < res'.length := by simpa using h
      have hget : (res'.get ⟨j, Nat.lt_of_succ_lt h'⟩).success = false := by
        have := hfalse
        rwa [List.get_cons_succ] at this
      have := ih.cont j h' hget
      rw [List.take_succ_cons, drawsUsed_cons, ← hc, ← Nat.add_assoc]
      exact this

/-- The step loop of `simulate_attack` satisfies `StepWalkSpec`: its results
are fully characterised by the draw stream in the way the specification
describes. -/
theorem simulateSteps_sound (rand : Nat → ℚ) :
    ∀ (steps : List String) (i k : Nat),
      StepWalkSpec rand steps i k (simulateSteps rand steps i k) := by
  intro steps
  induction steps with
  | nil =>
    intro i k
    refine ⟨by simp [simulateSteps], ?_, ?_, ?_, ?_, ?_⟩ <;>
      simp [simulateSteps]
  | cons s rest ih =>
    intro i k
    by_cases hs : (3 : ℚ)/10 < rand k
    · rw [simulateSteps_cons_pos hs]
      exact StepWalkSpec.cons (c := 1) rfl rfl
        (by simp [decide_eq_true hs]) (by simp)
        (by intro hcontra; exact absurd hcontra (by simp))
        (ih (i + 1) (k + 1))
    · by_cases h2 : (1 : ℚ)/2 < rand (k + 1)
      · rw [simulateSteps_cons_stop hs h2]
        refine ⟨by simp, ?_, ?_, ?_, ?_, ?_⟩
        · intro j h
          have hj0 : j = 0 := by simp at h; omega
          subst hj0
          simp
        · intro j h
          have hj0 : j = 0 := by simp at h; omega
          subst hj0
          exact ⟨by simp, by simp⟩
        · intro j h
          have hj0 : j = 0 := by simp at h; omega
          subst hj0
          simp only [List.get_cons_zero, stepRec_success, List.take_zero,
            drawsUsed, Nat.add_zero]
          rw [decide_eq_false hs]
          rfl
        · intro _
          refine ⟨by simp, by simp, ?_⟩
          show (1 : ℚ)/2 < rand (k + drawsUsed [stepRec i s false] - 1)
          have : k + drawsUsed [stepRec i s false] - 1 = k + 1 := by
            simp [drawsUsed_cons, drawsUsed]
          rw [this]
          exact h2
        · intro j h
          simp at h
      · rw [simulateSteps_cons_cont hs h2]
        exact StepWalkSpec.cons (c := 2) rfl rfl
          (by simp [decide_eq_false hs]) (by simp)
          (fun _ => h2) (ih (i + 1) (k + 2))

theorem string_data_append (s t : String) : (s ++ t).data = s.data ++ t.data := by
  obtain ⟨a⟩ := s
  obtain ⟨b⟩ := t
  rfl

theorem string_append_empty (s : String) : s ++ "" = s := by
  obtain ⟨d⟩ := s
  show String.mk (d ++ []) = String.mk d
  rw [List.append_nil]

theorem string_empty_append (s : String) : "" ++ s = s := by
  obtain ⟨d⟩ := s
  rfl

theorem string_append_assoc (a b c : String) : a ++ b ++ c = a ++ (b ++ c) := by
  obtain ⟨x⟩ := a
  obtain ⟨y⟩ := b
  obtain ⟨z⟩ := c
  show String.mk (x ++ y ++ z) = String.mk (x ++ (y ++ z))
  rw [List.append_assoc]

/-- A line that starts with `"- "` has a truthy strip (it contains a dash). -/
theorem pyStartsWith_dash_truthy (l : String)
    (h : pyStartsWith l "- " = true) : truthyStrip l = true := by
  obtain ⟨ld⟩ := l
  have hdata : ("- " : String).data = ['-', ' '] := rfl
  rw [pyStartsWith, hdata] at h
  cases ld with
  | nil => simp [startsChars] at h
  | cons c cs =>
    simp only [startsChars, Bool.and_eq_true, beq_iff_eq] at h
    obtain ⟨hc, _⟩ := h
    subst hc
    simp [truthyStrip, pyIsSpace]

/-- `addLine` in closed form: each field receives exactly the item the
specification-side collectors predict. -/
theorem addLine_eq (sec : SectionKey) (line : String) (acc : Sections) :
    addLine sec line acc =
      { key_findings := acc.key_findings
          ++ (if sec = .key_findings ∧ pyStartsWith line "- " = true
              then [pyDrop line 2] else [])
        attack_patterns := acc.attack_patterns
          ++ (if sec = .attack_patterns ∧ pyStartsWith line "- " = true
              then [pyDrop line 2] else [])
        critical_vulnerabilities := acc.critical_vulnerabilities
          ++ (if sec = .critical_vulnerabilities ∧ pyStartsWith line "- " = true
              then [pyDrop line 2] else [])
        recommendations := acc.recommendations
          ++ (if sec = .recommendations ∧ pyStartsWith line "- " = true
              then [pyDrop line 2] else [])
        risk_assessment := acc.risk_assessment
          ++ (if sec = .risk_assessment then line ++ "\n" else "") } := by
  cases sec <;> by_cases hd : pyStartsWith line "- " = true <;>
    simp [addLine, hd, string_append_empty, string_append_assoc]

theorem analyzeLoop_cons_heading {line : String} {sec : SectionKey}
    (h : lineHeading line = some sec) (ls : List String)
    (cur : Option SectionKey) (acc : Sections) :
    analyzeLoop (line :: ls) cur acc = analyzeLoop ls (some sec) acc := by
  simp [analyzeLoop, h]

theorem analyzeLoop_cons_out {line : String}
    (h : lineHeading line = none) (ls : List String) (acc : Sections) :
    analyzeLoop (line :: ls) none acc = analyzeLoop ls none acc := by
  simp [analyzeLoop, h]

theorem analyzeLoop_cons_truthy {line : String} {sec : SectionKey}
    (h : lineHeading line = none) (ht : truthyStrip line = true)
    (ls : List String) (acc : Sections) :
    analyzeLoop (line :: ls) (some sec) acc
      = analyzeLoop ls (some sec) (addLine sec line acc) := by
  simp [analyzeLoop, h, ht]

theorem analyzeLoop_cons_blank {line : String} {sec : SectionKey}
    (h : lineHeading line = none) (ht : ¬ truthyStrip line = true)
    (ls : List String) (acc : Sections) :
    analyzeLoop (line :: ls) (some sec) acc
      = analyzeLoop ls (some sec) acc := by
  simp [analyzeLoop, h, ht]

theorem headedLines_cons_heading {line : String} {sec : SectionKey}
    (h : lineHeading line = some sec) (ls : List String)
    (cur : Option SectionKey) :
    headedLines cur (line :: ls) = headedLines (some sec) ls := by
  cases cur <;> simp [headedLines, h]

theorem headedLines_cons_out {line : String}
    (h : lineHeading line = none) (ls : List String) :
    headedLines none (line :: ls) = headedLines none ls := by
  simp [headedLines, h]

theorem headedLines_cons_in {line : String} {sec : SectionKey}
    (h : lineHeading line = none) (ls : List String) :
    headedLines (some sec) (line :: ls)
      = (sec, line) :: headedLines (some sec) ls := by
  simp [headedLines, h]

/-- The accumulator loop of the section splitter computes exactly the
specification-side collectors, appended to the incoming accumulator. -/
theorem analyzeLoop_spec :
    ∀ (ls : List String) (cur : Option SectionKey) (acc : Sections),
      analyzeLoop ls cur acc =
        { key_findings := acc.key_findings
            ++ dashItems .key_findings (headedLines cur ls)
          attack_patterns := acc.attack_patterns
            ++ dashItems .attack_patterns (headedLines cur ls)
          critical_vulnerabilities := acc.critical_vulnerabilities
            ++ dashItems .critical_vulnerabilities (headedLines cur ls)
          recommendations := acc.recommendations
            ++ dashItems .recommendations (headedLines cur ls)
          risk_assessment := acc.risk_assessment
            ++ riskText (headedLines cur ls) } := by
  intro ls
  induction ls with
  | nil =>
    intro cur acc
    simp [analyzeLoop, headedLines, dashItems, riskText, string_append_empty]
  | cons line ls ih =>
    intro cur acc
    cases hH : lineHeading line with
    | some sec =>
      rw [analyzeLoop_cons_heading hH, headedLines_cons_heading hH]
      exact ih (some sec) acc
    | none =>
      cases cur with
      | none =>
        rw [analyzeLoop_cons_out hH, headedLines_cons_out hH]
        exact ih none acc
      | some sec =>
        rw [headedLines_cons_in hH]
        by_cases ht : truthyStrip line = true
        · rw [analyzeLoop_cons_truthy hH ht,
            ih (some sec) (addLine sec line acc), addLine_eq]
          simp [dashItems, riskText, ht, List.append_assoc, string_append_assoc]
        · rw [analyzeLoop_cons_blank hH ht, ih (some sec) acc]
          have hdash : ¬ pyStartsWith line "- " = true :=
            fun hd => ht (pyStartsWith_dash_truthy line hd)
          simp [dashItems, riskText, hdash, ht, string_append_empty,
            string_append_assoc]

/-- C1: for every scenario whose step list has `N ≥ 1` steps,
`simulate_attack` succeeds and the recorded `StepResult` list has length
between 1 and `N` inclusive, and the scenario's `overall_success` field is
`true` if and only if at least one recorded `StepResult` has
`success = true`. -/
theorem claim_C1 (rand : Nat → ℚ) (st : SimState) (sc : Scenario)
    (h : 1 ≤ sc.scenario.steps.length) :
    ∃ sc' st', simulate_attack rand st (some sc) = (.ok sc', st')
      ∧ 1 ≤ sc'.simulation_results.length
      ∧ sc'.simulation_results.length ≤ sc.scenario.steps.length
      ∧ (sc'.overall_success = some true
          ↔ ∃ r ∈ sc'.simulation_results, r.success = true) := by
  have hne : sc.scenario.steps ≠ [] := by
    intro hnil
    rw [hnil] at h
    simp at h
  refine ⟨_, _, rfl, ?_, ?_, ?_⟩
  · show 1 ≤ (simulateSteps rand sc.scenario.steps 0 0).length
    exact List.length_pos.mpr (simulateSteps_ne_nil rand sc.scenario.steps 0 0 hne)
  · show (simulateSteps rand sc.scenario.steps 0 0).length
      ≤ sc.scenario.steps.length
    exact simulateSteps_length_le rand sc.scenario.steps 0 0
  · show some ((simulateSteps rand sc.scenario.steps 0 0).any fun r => r.success)
        = some true
      ↔ ∃ r ∈ simulateSteps rand sc.scenario.steps 0 0, r.success = true
    simp [List.any_eq_true]

theorem claim_C1_witness :
    1 ≤ (AttackScenario.mk (some "v") ["Step 1"] (some "Critical") []
          []).steps.length
    ∧ ∃ sc' st',
        simulate_attack (fun _ => (0 : ℚ)) ⟨none, []⟩
            (some { scenario := AttackScenario.mk (some "v") ["Step 1"]
                      (some "Critical") [] [],
                    status := "generated" })
          = (.ok sc', st')
        ∧ 1 ≤ sc'.simulation_results.length
        ∧ sc'.simulation_results.length
            ≤ (AttackScenario.mk (some "v") ["Step 1"] (some "Critical") []
                []).steps.length
        ∧ (sc'.overall_success = some true
            ↔ ∃ r ∈ sc'.simulation_results, r.success = true) :=
  ⟨by decide, claim_C1 (fun _ => (0 : ℚ)) ⟨none, []⟩ _ (by decide)⟩

/-- C2: `simulate_attack` processes the steps in order; for each executed
step it draws one uniform value and marks the step successful exactly when
that value exceeds 3/10; after a failed step it draws a second value and
terminates the walk early exactly when that value exceeds 1/2; one
`StepResult` with 1-based step index and the step's description is recorded
per executed step.  `StepWalkSpec` states exactly these properties of the
result list relative to the draw stream. -/
theorem claim_C2 (rand : Nat → ℚ) (steps : List String) :
    StepWalkSpec rand steps 0 0 (simulateSteps rand steps 0 0) :=
  simulateSteps_sound rand steps 0 0

theorem claim_C2_witness :
    simulateSteps (fun _ => (2 : ℚ)/5) ["recon", "exploit"] 0 0
        = [stepRec 0 "recon" true, stepRec 1 "exploit" true]
    ∧ StepWalkSpec (fun _ => (2 : ℚ)/5) ["recon", "exploit"] 0 0
        (simulateSteps (fun _ => (2 : ℚ)/5) ["recon", "exploit"] 0 0) :=
  ⟨by
    rw [@simulateSteps_cons_pos (fun _ => (2 : ℚ)/5) 0 (by norm_num)
        "recon" ["exploit"] 0,
      @simulateSteps_cons_pos (fun _ => (2 : ℚ)/5) 1 (by norm_num)
        "exploit" [] 1]
    rfl,
   claim_C2 (fun _ => (2 : ℚ)/5) ["recon", "exploit"]⟩

/-- C4: for every target, complexity label and text-generation reply
(including the empty string), `generate_attack_scenario` returns a scenario
with a non-null `attack_vector`, a non-empty `steps` list and a defined
(non-null) `impact`; the function is total, so no parse failure can
propagate to the caller. -/
theorem claim_C4 (target_info : List (String × String))
    (complexity reply : String) :
    (generate_attack_scenario target_info complexity reply).attack_vector ≠ none
    ∧ (generate_attack_scenario target_info complexity reply).steps ≠ []
    ∧ (generate_attack_scenario target_info complexity reply).impact ≠ none := by
  refine ⟨?_, ?_, ?_⟩ <;>
    simp [generate_attack_scenario, _parse_attack_scenario]

/-- C8: `simulate_attack` is deterministic in its randomness source — two
runs on the same scenario whose draw streams agree pointwise produce the
same call result (hence identical `StepResult` sequences, including step
indices, descriptions, success flags and detail strings, and identical
`overall_success`), independently of the rest of the simulator state. -/
theorem claim_C8 (rand1 rand2 : Nat → ℚ) (st1 st2 : SimState) (sc : Scenario)
    (h : ∀ n, rand1 n = rand2 n) :
    (simulate_attack rand1 st1 (some sc)).fst
        = (simulate_attack rand2 st2 (some sc)).fst
    ∧ simulateSteps rand1 sc.scenario.steps 0 0
        = simulateSteps rand2 sc.scenario.steps 0 0 := by
  have hr : rand1 = rand2 := funext h
  subst hr
  exact ⟨rfl, rfl⟩

theorem claim_C8_witness :
    (∀ n : Nat, (fun _ : Nat => (1 : ℚ)/2) n = (fun _ : Nat => (1 : ℚ)/2) n)
    ∧ ((simulate_attack (fun _ : Nat => (1 : ℚ)/2) ⟨none, []⟩
          (some { scenario := AttackScenario.mk none ["s"] none [] [],
                  status := "generated" })).fst
        = (simulate_attack (fun _ : Nat => (1 : ℚ)/2) ⟨none, [⟨AttackScenario.mk none [] none [] [], "x", [], none, none⟩]⟩
          (some { scenario := AttackScenario.mk none ["s"] none [] [],
                  status := "generated" })).fst
      ∧ simulateSteps (fun _ : Nat => (1 : ℚ)/2)
          (Scenario.mk (AttackScenario.mk none ["s"] none [] [])
            "generated" [] none none).scenario.steps 0 0
        = simulateSteps (fun _ : Nat => (1 : ℚ)/2)
          (Scenario.mk (AttackScenario.mk none ["s"] none [] [])
            "generated" [] none none).scenario.steps 0 0) :=
  ⟨fun _ => rfl,
    claim_C8 (fun _ => (1 : ℚ)/2) (fun _ => (1 : ℚ)/2) ⟨none, []⟩
      ⟨none, [⟨AttackScenario.mk none [] none [] [], "x", [], none, none⟩]⟩
      ⟨AttackScenario.mk none ["s"] none [] [], "generated", [], none, none⟩
      (fun _ => rfl)⟩

/-- C9: calling `simulate_attack` or `analyze_vulnerability` with no scenario
argument while no current scenario is stored raises `ValueError` and leaves
the simulator state — `simulation_history` and `current_scenario` —
unchanged. -/
theorem claim_C9 (rand : Nat → ℚ) (st : SimState) (reply : String)
    (h : st.current_scenario = none) :
    simulate_attack rand st none
        = (.error "No scenario available for simulation", st)
    ∧ analyze_vulnerability st none reply
        = (.error "No scenario available for analysis", st) := by
  constructor
  · simp only [simulate_attack, h]
  · simp only [analyze_vulnerability, h]

theorem claim_C9_witness :
    (SimState.mk none []).current_scenario = none
    ∧ (simulate_attack (fun _ => (0 : ℚ)) ⟨none, []⟩ none
          = (.error "No scenario available for simulation", (⟨none, []⟩ : SimState))
      ∧ analyze_vulnerability ⟨none, []⟩ none ""
          = (.error "No scenario available for analysis", (⟨none, []⟩ : SimState))) :=
  ⟨rfl, claim_C9 (fun _ => (0 : ℚ)) ⟨none, []⟩ "" rfl⟩

@[simp] theorem string_data_mk (l : List Char) : (String.mk l).data = l := rfl

/-- The infrastructure cache file name is injective in the country. -/
theorem infrastructure_cache_file_injective (c c' : String) :
    infrastructure_cache_file c = infrastructure_cache_file c' ↔ c = c' := by
  constructor
  · intro h
    obtain ⟨cd⟩ := c
    obtain ⟨cd'⟩ := c'
    have hd := congrArg String.data h
    simp only [infrastructure_cache_file, string_data_append,
      string_data_mk] at hd
    have h1 := List.append_cancel_right hd
    have h2 := List.append_cancel_left h1
    exact congrArg String.mk h2
  · intro h
    rw [h]

/-- The infrastructure cache files are distinct from the vessel cache file. -/
theorem infrastructure_cache_file_ne_ais (c : String) :
    infrastructure_cache_file c ≠ ais_cache_file := by
  intro h
  have hd := congrArg (fun s : String => s.data.head?) h
  simp only [infrastructure_cache_file, ais_cache_file,
    string_data_append] at hd
  simp [List.cons_append] at hd

/-- C10: whenever a well-formed vessel cache file exists, `collect_ais_data`
returns exactly the first `limit` entries of the cached list, does not invoke
the external pipeline, and leaves the cache untouched — for every current
time and file modification time, i.e. without checking the file's age; in
particular a cache parsing as the empty JSON list yields the empty result. -/
theorem claim_C10 (data : List Vessel) (limit now mtime : Nat)
    (pipeline : Except Unit (List Vessel)) (rng : Nat → Nat) :
    collect_ais_data (.valid data) now mtime limit pipeline rng
        = ⟨data.take limit, false, .valid data⟩
    ∧ (collect_ais_data (.valid ([] : List Vessel)) now mtime limit pipeline
        rng).vessels = [] :=
  ⟨rfl, by simp [collect_ais_data]⟩

/-- C5 counterexample: a request served from a well-formed but empty vessel
cache returns the empty list, so the Target Provider does not return a
non-empty record list on every maritime request (here the download pipeline
would even raise — and is never consulted). -/
theorem claim_C5_counterexample :
    (collect_ais_data (.valid ([] : List Vessel)) 0 0 20 (.error ())
      (fun _ => 0)).vessels = [] := rfl

/-- C5 amended: when no well-formed vessel cache exists, every download or
processing failure is swallowed and replaced by exactly `limit`
synthetically generated vessel records — non-empty whenever `limit ≥ 1`
(all call sites pass 10 or 20) — and `collect_ais_data` is total, so no
error propagates; with a well-formed cache the cached list (which may be
empty) is served instead. -/
theorem claim_C5_amended (now mtime limit : Nat)
    (cache : FileContent (List Vessel)) (rng : Nat → Nat)
    (hcache : cache = .absent ∨ cache = .corrupt) (hlim : 1 ≤ limit) :
    (collect_ais_data cache now mtime limit (.error ()) rng).vessels
        = _generate_simulated_vessels rng limit
    ∧ (collect_ais_data cache now mtime limit (.error ()) rng).vessels.length
        = limit
    ∧ (collect_ais_data cache now mtime limit (.error ()) rng).vessels
        ≠ [] := by
  have hv : (collect_ais_data cache now mtime limit (.error ()) rng).vessels
      = _generate_simulated_vessels rng limit := by
    obtain rfl | rfl := hcache <;> rfl
  have hlen : (_generate_simulated_vessels rng limit).length = limit := by
    simp [_generate_simulated_vessels]
  refine ⟨hv, by rw [hv, hlen], ?_⟩
  rw [hv]
  intro hnil
  rw [hnil] at hlen
  simp at hlen
  omega

theorem claim_C5_witness :
    ((FileContent.absent : FileContent (List Vessel)) = .absent
      ∨ (FileContent.absent : FileContent (List Vessel)) = .corrupt)
    ∧ 1 ≤ 20
    ∧ ((collect_ais_data .absent 0 0 20 (.error ()) (fun _ => 0)).vessels
          = _generate_simulated_vessels (fun _ => 0) 20
      ∧ (collect_ais_data .absent 0 0 20 (.error ())
          (fun _ => 0)).vessels.length = 20
      ∧ (collect_ais_data .absent 0 0 20 (.error ()) (fun _ => 0)).vessels
          ≠ []) :=
  ⟨Or.inl rfl, by decide,
    claim_C5_amended 0 0 20 .absent (fun _ => 0) (Or.inl rfl) (by decide)⟩

/-- C3 counterexample: a well-formed vessel cache file that is far older than
24 hours (file mtime 0, current time 1000000) is still served as-is and the
external source is not re-queried — the vessel cache has no freshness
window, contradicting the claim that every kind re-queries after 24 hours. -/
theorem claim_C3_counterexample :
    86400 ≤ 1000000 - 0
    ∧ (collect_ais_data (.valid [⟨"123456789", none⟩]) 1000000 0 20
        (.error ()) (fun _ => 0)).queried_external = false
    ∧ (collect_ais_data (.valid [⟨"123456789", none⟩]) 1000000 0 20
        (.error ()) (fun _ => 0)).vessels = [⟨"123456789", none⟩] :=
  ⟨by norm_num, rfl, rfl⟩

/-- C3 amended: successful fetches are cached to a file keyed by kind (and,
for infrastructure, additionally by country — the file names are pairwise
distinct); the infrastructure cache is reused only within a fixed 24-hour
freshness window, after which the source is re-queried and re-cached; the
vessel cache, however, is reused unconditionally whenever present and
parseable, for every file age, and is invalidated only by a parse
failure. -/
theorem claim_C3_amended (now mtime limit : Nat) (country : String)
    (pipeline : Except Unit (List Vessel)) (rng : Nat → Nat)
    (fetchFails : Bool) :
    (∀ data : List Vessel,
      (collect_ais_data (.valid data) now mtime limit pipeline
          rng).queried_external = false
      ∧ (collect_ais_data (.valid data) now mtime limit pipeline rng).vessels
          = data.take limit)
    ∧ (∀ cache : FileContent (List Vessel),
        (cache = .absent ∨ cache = .corrupt) →
        (collect_ais_data cache now mtime limit pipeline
            rng).queried_external = true
        ∧ ∀ vs, pipeline = .ok vs →
            (collect_ais_data cache now mtime limit pipeline rng).new_cache
              = .valid vs
            ∧ (collect_ais_data cache now mtime limit pipeline rng).vessels
              = vs.take limit)
    ∧ (∀ data : List Facility, now - mtime < 86400 →
        collect_infrastructure_data (.valid data) now mtime country limit
            fetchFails rng
          = .ok ⟨data, false, .valid data⟩)
    ∧ (∀ data : List Facility, ¬ now - mtime < 86400 →
        collect_infrastructure_data (.valid data) now mtime country limit
            fetchFails rng
          = .ok (infra_fetch rng limit fetchFails)
        ∧ (infra_fetch rng limit fetchFails).queried = true
        ∧ (infra_fetch rng limit fetchFails).new_cache
            = .valid (infra_fetch rng limit fetchFails).facilities)
    ∧ (collect_infrastructure_data .absent now mtime country limit fetchFails
          rng = .ok (infra_fetch rng limit fetchFails))
    ∧ (∀ c : String, infrastructure_cache_file c ≠ ais_cache_file)
    ∧ (∀ c c' : String,
        infrastructure_cache_file c = infrastructure_cache_file c' ↔ c = c') := by
  refine ⟨fun data => ⟨rfl, rfl⟩, ?_, ?_, ?_, rfl,
    infrastructure_cache_file_ne_ais, infrastructure_cache_file_injective⟩
  · intro cache hcache
    obtain rfl | rfl := hcache
    · exact ⟨by cases pipeline <;> rfl,
        fun vs hvs => by subst hvs; exact ⟨rfl, rfl⟩⟩
    · exact ⟨by cases pipeline <;> rfl,
        fun vs hvs => by subst hvs; exact ⟨rfl, rfl⟩⟩
  · intro data hfresh
    simp [collect_infrastructure_data, hfresh]
  · intro data hstale
    refine ⟨?_, rfl, rfl⟩
    simp [collect_infrastructure_data, hstale]

theorem claim_C3_witness :
    ¬ ((200000 : Nat) - 0 < 86400)
    ∧ ((collect_ais_data (.valid [(⟨"1", none⟩ : Vessel)]) 200000 0 5
          (.ok [⟨"2", none⟩]) (fun _ => 0)).queried_external = false
      ∧ (collect_ais_data (.valid [(⟨"1", none⟩ : Vessel)]) 200000 0 5
          (.ok [⟨"2", none⟩]) (fun _ => 0)).vessels
          = [(⟨"1", none⟩ : Vessel)].take 5)
    ∧ ((collect_ais_data .corrupt 200000 0 5 (.ok [⟨"2", none⟩])
          (fun _ => 0)).queried_external = true)
    ∧ (collect_infrastructure_data (.valid [(⟨"F1"⟩ : Facility)]) 100 50 "US"
          5 false (fun _ => 0)
        = .ok ⟨[⟨"F1"⟩], false, .valid [⟨"F1"⟩]⟩)
    ∧ (collect_infrastructure_data (.valid [(⟨"F1"⟩ : Facility)]) 200000 0
          "US" 5 false (fun _ => 0)
        = .ok (infra_fetch (fun _ => 0) 5 false)) := by
  refine ⟨by decide, ?_, ?_, ?_, ?_⟩
  · exact (claim_C3_amended 200000 0 5 "US" (.ok [⟨"2", none⟩])
      (fun _ => 0) false).1 [⟨"1", none⟩]
  · exact ((claim_C3_amended 200000 0 5 "US" (.ok [⟨"2", none⟩])
      (fun _ => 0) false).2.1 .corrupt (Or.inr rfl)).1
  · exact (claim_C3_amended 100 50 5 "US" (.ok []) (fun _ => 0)
      false).2.2.1 [⟨"F1"⟩] (by decide)
  · exact ((claim_C3_amended 200000 0 5 "US" (.ok []) (fun _ => 0)
      false).2.2.2.1 [⟨"F1"⟩] (by decide)).1

/-- C6 counterexample: when the fetched record set is empty (here: a
well-formed vessel cache holding the empty list), a supplied identifier that
matches no record makes `load_target_from_osint` raise (`random.choice` on
an empty sequence), so the claim that no error is ever raised for a
not-found identifier fails. -/
theorem claim_C6_counterexample :
    load_target_from_osint (.valid ([] : List Vessel)) .absent 0 0 0
      (.error ()) (fun _ => 0) false "maritime" (some "X") 0
      = .error "IndexError" := rfl

/-- C6 amended: provided the fetched record set is non-empty, a supplied
identifier matching no record raises no error — a record selected by the
random index from the same set is returned, tagged with the requested kind;
when the identifier does match, the first matching record is returned.
(With an empty record set the `random.choice` fallback raises
`IndexError`.) -/
theorem claim_C6_amended (aisCache : FileContent (List Vessel))
    (infraCache : FileContent (List Facility)) (now am im : Nat)
    (pipeline : Except Unit (List Vessel)) (rng : Nat → Nat) (ff : Bool)
    (tid : String) (choice : Nat) (vessels : List Vessel) (r : InfraResult)
    (hv : vessels = (collect_ais_data aisCache now am 20 pipeline rng).vessels)
    (hr : collect_infrastructure_data infraCache now im "US" 20 ff rng
      = .ok r) :
    (∀ v, vessels.find? (fun v => v.mmsi == tid || v.imo == some tid)
        = some v →
      load_target_from_osint aisCache infraCache now am im pipeline rng ff
        "maritime" (some tid) choice = .ok (.maritime v))
    ∧ (vessels.find? (fun v => v.mmsi == tid || v.imo == some tid) = none →
        ∀ hne : vessels ≠ [],
        load_target_from_osint aisCache infraCache now am im pipeline rng ff
          "maritime" (some tid) choice
          = .ok (.maritime (vessels.get ⟨choice % vessels.length,
              Nat.mod_lt choice (List.length_pos.mpr hne)⟩)))
    ∧ (∀ f, r.facilities.find? (fun f => f.id == tid) = some f →
        load_target_from_osint aisCache infraCache now am im pipeline rng ff
          "infrastructure" (some tid) choice = .ok (.infrastructure f))
    ∧ (r.facilities.find? (fun f => f.id == tid) = none →
        ∀ hne : r.facilities ≠ [],
        load_target_from_osint aisCache infraCache now am im pipeline rng ff
          "infrastructure" (some tid) choice
          = .ok (.infrastructure (r.facilities.get
              ⟨choice % r.facilities.length,
                Nat.mod_lt choice (List.length_pos.mpr hne)⟩))) := by
  subst hv
  refine ⟨?_, ?_, ?_, ?_⟩
  · intro v hfind
    simp only [load_target_from_osint, eq_self_iff_true, if_true]
    rw [hfind]
  · intro hfind hne
    simp only [load_target_from_osint, eq_self_iff_true, if_true]
    rw [hfind, List.get?_eq_get (Nat.mod_lt choice (List.length_pos.mpr hne))]
  · intro f hfind
    have hm : ¬ ("infrastructure" = "maritime") := by decide
    simp only [load_target_from_osint, if_neg hm]
    rw [hr]
    dsimp only
    rw [hfind]
  · intro hfind hne
    have hm : ¬ ("infrastructure" = "maritime") := by decide
    simp only [load_target_from_osint, if_neg hm]
    rw [hr]
    dsimp only
    rw [hfind,
      List.get?_eq_get (Nat.mod_lt choice (List.length_pos.mpr hne))]

theorem claim_C6_witness :
    ([(⟨"123456789", none⟩ : Vessel)]
        = (collect_ais_data (.valid [⟨"123456789", none⟩]) 0 0 20 (.ok [])
            (fun _ => 0)).vessels)
    ∧ (load_target_from_osint (.valid [⟨"123456789", none⟩]) .absent 0 0 0
        (.ok []) (fun _ => 0) false "maritime" (some "123456789") 3
        = .ok (.maritime ⟨"123456789", none⟩))
    ∧ (load_target_from_osint (.valid [⟨"123456789", none⟩]) .absent 0 0 0
        (.ok []) (fun _ => 0) false "maritime" (some "999") 3
        = .ok (.maritime ⟨"123456789", none⟩)) :=
  ⟨by decide,
    (claim_C6_amended (.valid [⟨"123456789", none⟩]) .absent 0 0 0 (.ok [])
      (fun _ => 0) false "123456789" 3 [⟨"123456789", none⟩]
      (infra_fetch (fun _ => 0) 20 false) (by decide) rfl).1
      ⟨"123456789", none⟩ (by decide),
    (claim_C6_amended (.valid [⟨"123456789", none⟩]) .absent 0 0 0 (.ok [])
      (fun _ => 0) false "999" 3 [⟨"123456789", none⟩]
      (infra_fetch (fun _ => 0) 20 false) (by decide) rfl).2.1
      (by decide) (by decide)⟩

/-- C7 counterexample: the reply `"Risk Assessment\n- foo"` assigns the
dash-prefixed line to the Risk Assessment heading, but the code collects it
into no section list at all — stripped `"foo"` appears in none of the four
list-valued sections; instead the raw line (dash prefix included) is
appended to the `risk_assessment` *string*.  This contradicts the claim that
every `"- "`-prefixed line is collected, with the prefix stripped, into its
section's list. -/
theorem claim_C7_counterexample :
    ("foo" ∉ (parse_analysis_sections "Risk Assessment\n- foo").key_findings
      ∧ "foo" ∉ (parse_analysis_sections "Risk Assessment\n- foo").attack_patterns
      ∧ "foo" ∉ (parse_analysis_sections
          "Risk Assessment\n- foo").critical_vulnerabilities
      ∧ "foo" ∉ (parse_analysis_sections "Risk Assessment\n- foo").recommendations)
    ∧ (parse_analysis_sections "Risk Assessment\n- foo").risk_assessment
        = "- foo\n" := by decide

/-- C7 amended: the reply is split into lines and scanned for the five fixed
heading substrings; every non-heading line is assigned to the most recently
seen heading and lines preceding the first recognised heading are dropped
(`headedLines`); for the four list-valued sections exactly the
`"- "`-prefixed assigned lines are collected with the prefix stripped
(`dashItems`); lines assigned to Risk Assessment are instead accumulated
verbatim (dash prefix included, truthy lines only) into a single string,
each followed by a newline (`riskText`). -/
theorem claim_C7_amended (analysis : String) :
    parse_analysis_sections analysis
      = { key_findings :=
            dashItems .key_findings (headedLines none (splitNl analysis.data))
          attack_patterns :=
            dashItems .attack_patterns (headedLines none (splitNl analysis.data))
          critical_vulnerabilities :=
            dashItems .critical_vulnerabilities
              (headedLines none (splitNl analysis.data))
          recommendations :=
            dashItems .recommendations (headedLines none (splitNl analysis.data))
          risk_assessment := riskText (headedLines none (splitNl analysis.data)) }
    ∧ ∀ (pre rest : List String), (∀ l ∈ pre, lineHeading l = none) →
        analyzeLoop (pre ++ rest) none emptySections
          = analyzeLoop rest none emptySections := by
  constructor
  · simp only [parse_analysis_sections]
    rw [analyzeLoop_spec]
    simp [emptySections, string_empty_append]
  · intro pre
    induction pre with
    | nil =>
      intro rest h
      simp
    | cons l pre ih =>
      intro rest h
      have hl : lineHeading l = none := h l (List.mem_cons_self l pre)
      rw [List.cons_append, analyzeLoop_cons_out hl]
      exact ih rest (fun x hx => h x (List.mem_cons_of_mem l hx))

theorem claim_C7_witness :
    parse_analysis_sections "intro\nKey Findings\n- a\nRisk Assessment\nsummary"
      = ⟨["a"], [], [], [], "summary\n"⟩
    ∧ analyzeLoop (["junk"] ++ ["Key Findings", "- a"]) none emptySections
        = analyzeLoop ["Key Findings", "- a"] none emptySections :=
  ⟨by decide,
    (claim_C7_amended "").2 ["junk"] ["Key Findings", "- a"] (by decide)⟩
